import Mathlib

/-!
Shallow embedding of the TeamConnect fleet-management server's timesheet and
truck route handlers (Hono + Drizzle over SQLite), together with proofs about
the timesheet lifecycle they implement.

Sources embedded:
* `src/server/db/timesheet-schema.sql.ts` — the `trucks`, `timesheets` and
  `billing_rates` tables (columns kept; `{mode: "timestamp"}` integer columns
  are modelled as epoch-second integers, so the handler's
  `new Date(x * 1000)` wire conversion is the identity on the stored value).
* `src/server/routes/timesheet-routes.ts` — POST `/`, PATCH `/:id` and
  DELETE `/:id` handlers (the transactional version: create and update run
  inside `db.transaction`, a driver editing a rejected record resets it to
  pending, and an admin rejection without a reason stores the placeholder
  string "Rejected by admin.").
* `src/server/routes/trucks-routes.ts` — DELETE `/:id` handler, including the
  SQLite `ON DELETE restrict` foreign key from `timesheets.truck_id` which the
  handler's catch-clause maps to HTTP 409.  (`maintenance_logs.truck_id` is
  `ON DELETE cascade`, so maintenance logs never block a truck delete and are
  not part of the state.)

The database is a record of lists of rows; a transaction is a single step of
the handler function, which returns the response together with the database
after the call — error paths return the original database (rollback).
-/

namespace TeamConnect

/-- `timesheets.status` enumeration: `["pending", "approved", "rejected"]`. -/
inductive TsStatus
  | pending
  | approved
  | rejected
deriving DecidableEq, Repr

/-- User roles consulted by the handlers (`driver`, `admin`, `maintenance`). -/
inductive Role
  | driver
  | admin
  | maintenance
deriving DecidableEq, Repr

/-- The authenticated actor, as read from `c.get("user")`: only its `id` and
`role` are consulted by the embedded handlers. -/
structure User where
  id : String
  role : Role
deriving DecidableEq, Repr

/-- A row of the `trucks` table (`timesheet-schema.sql.ts`). -/
structure Truck where
  id : String
  unitNumber : String
  make : Option String := none
  model : Option String := none
  serialNumber : Option String := none
  lastOdometerReading : Option Int := some 0
  lastMaintenanceOdometerReading : Option Int := some 0
  maintenanceIntervalKm : Int := 10000
  createdAt : Int := 0
  updatedAt : Int := 0
deriving DecidableEq, Repr

/-- A row of the `timesheets` table (`timesheet-schema.sql.ts`).
`total_billed_amount` is a SQL `real`; it is only ever copied, never computed
with, so it is modelled as a rational number. -/
structure Timesheet where
  id : String
  driverId : String
  truckId : String
  shiftStartDate : Int
  shiftEndDate : Option Int := none
  startOdometerReading : Option Int := none
  endOdometerReading : Int
  status : TsStatus := .pending
  approvedBy : Option String := none
  approvedAt : Option Int := none
  rejectionReason : Option String := none
  billingRateId : Option String := none
  totalBilledAmount : Option Rat := none
  notes : Option String := none
  createdAt : Int := 0
  updatedAt : Int := 0
deriving DecidableEq, Repr

/-- The database state the embedded handlers read and write.  Billing rates
are only ever consulted for existence (and in fact never are, on the embedded
paths), so only their ids are kept. -/
structure DB where
  trucks : List Truck
  timesheets : List Timesheet
  billingRateIds : List String := []
deriving DecidableEq, Repr

/-- `db.query.trucks.findFirst({ where: eq(trucks.id, tid) })`. -/
def findTruck (db : DB) (tid : String) : Option Truck :=
  db.trucks.find? (fun t => t.id == tid)

/-- `db.query.timesheets.findFirst({ where: eq(timesheets.id, tsId) })`. -/
def findTimesheet (db : DB) (tsId : String) : Option Timesheet :=
  db.timesheets.find? (fun t => t.id == tsId)

/-- JavaScript truthiness of an optional number (`undefined`, `null` and `0`
are falsy), as used by `validJson.shiftEndDate ? new Date(...) : null`. -/
def truthyNum : Option Int → Bool
  | none => false
  | some v => v != 0

/-- JavaScript truthiness of an optional string (`undefined` and `""` are
falsy), as used by `updatePayload.truckId &&`-style guards. -/
def truthyStr : Option String → Bool
  | none => false
  | some s => s != ""

/-- `db.update(trucks).set({ lastOdometerReading, updatedAt: new Date() })
.where(eq(trucks.id, tid))`. -/
def updateTruckOdometer (l : List Truck) (tid : String) (odo now : Int) : List Truck :=
  l.map fun t =>
    if t.id = tid then { t with lastOdometerReading := some odo, updatedAt := now } else t

/-- The request body accepted by `timesheetCreateSchema`
(`validations/timesheet.schema.ts`): field types only — the schema carries no
cross-field refinement (no end-odometer versus start-odometer comparison and
no shift-end versus shift-start comparison).  `driverId` is demanded by the
generated insert schema but ignored by the handler, which uses the session
user's id instead.  Nullable columns are kept optional. -/
structure TimesheetCreate where
  driverId : String := ""
  truckId : String
  shiftStartDate : Int
  shiftEndDate : Option Int := none
  startOdometerReading : Option Int := none
  endOdometerReading : Int
  notes : Option String := none
deriving DecidableEq, Repr

/-- Result of the POST `/` handler: the created row with its HTTP code and the
database after the transaction, or an error response (database unchanged). -/
inductive CreateResult
  | created (code : Nat) (record : Timesheet) (db : DB)
  | error (code : Nat) (msg : String) (db : DB)
deriving DecidableEq, Repr

/-- The `timesheetData` object the create handler inserts: driver id taken
from the session user, status forced to `pending`, the optional shift end
passed through JavaScript truthiness, approval and billing columns left to
their (null) defaults, `created_at`/`updated_at` to the `unixepoch()`
defaults. -/
def timesheetData (userId : String) (p : TimesheetCreate) (now : Int) (newId : String) :
    Timesheet :=
  { id := newId
    driverId := userId
    truckId := p.truckId
    shiftStartDate := p.shiftStartDate
    shiftEndDate := if truthyNum p.shiftEndDate then p.shiftEndDate else none
    startOdometerReading := p.startOdometerReading
    endOdometerReading := p.endOdometerReading
    notes := p.notes
    status := .pending
    createdAt := now
    updatedAt := now }

/-- POST `/api/timesheets` (`timesheet-routes.ts`): authentication check, role
gate (driver or admin), then one transaction that (1) checks the referenced
truck exists — otherwise the thrown error rolls back and is mapped to 400 —
(2) inserts the timesheet with `status: "pending"` and `driverId: user.id`,
and (3) sets the truck's `lastOdometerReading` to the submitted
`endOdometerReading` and refreshes its `updatedAt`.  `now` stands for
`new Date()` / the `unixepoch()` column defaults, `newId` for the `createId()`
primary-key default. -/
def timesheetsRoutePost (user? : Option User) (p : TimesheetCreate) (db : DB)
    (now : Int) (newId : String) : CreateResult :=
  match user? with
  | none => .error 401 "Unauthorized" db
  | some user =>
    if user.role ≠ Role.driver ∧ user.role ≠ Role.admin then
      .error 403 "Forbidden: Only drivers or admins can create timesheets" db
    else
      match findTruck db p.truckId with
      | none => .error 400 "Invalid truckId: Truck not found" db
      | some _ =>
        let ts : Timesheet := timesheetData user.id p now newId
        let db1 : DB := { db with timesheets := db.timesheets ++ [ts] }
        let db2 : DB :=
          { db1 with trucks := updateTruckOdometer db1.trucks p.truckId p.endOdometerReading now }
        .created 201 ts db2

/-- The request body accepted by `timesheetUpdateSchema`
(`validations/timesheet.schema.ts`): every field optional, types only.
`approvedBy` is accepted by the schema but never read by the handler. -/
structure TimesheetUpdate where
  truckId : Option String := none
  shiftStartDate : Option Int := none
  shiftEndDate : Option Int := none
  startOdometerReading : Option Int := none
  endOdometerReading : Option Int := none
  status : Option TsStatus := none
  approvedBy : Option String := none
  approvedAt : Option Int := none
  rejectionReason : Option String := none
  billingRateId : Option String := none
  totalBilledAmount : Option Rat := none
  notes : Option String := none
deriving DecidableEq, Repr

/-- The `updatePayload` object the PATCH handler assembles and hands to
`db.update(timesheets).set(...)`.  An outer `none` means the key is absent
from the object; for nullable columns the inner `Option` distinguishes a
value from an explicit SQL `NULL`. -/
structure TsSet where
  truckId : Option String := none
  shiftStartDate : Option Int := none
  shiftEndDate : Option (Option Int) := none
  startOdometerReading : Option Int := none
  endOdometerReading : Option Int := none
  status : Option TsStatus := none
  approvedBy : Option (Option String) := none
  approvedAt : Option (Option Int) := none
  rejectionReason : Option (Option String) := none
  billingRateId : Option String := none
  totalBilledAmount : Option Rat := none
  notes : Option String := none
  updatedAt : Option Int := none
deriving DecidableEq, Repr

/-- `Object.keys(updatePayload).length === 0` (checked before `updatedAt` is
added). -/
def TsSet.isEmpty (u : TsSet) : Bool :=
  u.truckId.isNone && u.shiftStartDate.isNone && u.shiftEndDate.isNone &&
  u.startOdometerReading.isNone && u.endOdometerReading.isNone && u.status.isNone &&
  u.approvedBy.isNone && u.approvedAt.isNone && u.rejectionReason.isNone &&
  u.billingRateId.isNone && u.totalBilledAmount.isNone && u.notes.isNone &&
  u.updatedAt.isNone

/-- The effect of `db.update(timesheets).set(u)` on one row: every key present
in the payload overwrites the column, every absent key leaves it alone. -/
def applyTsSet (t : Timesheet) (u : TsSet) : Timesheet :=
  { t with
    truckId := u.truckId.getD t.truckId
    shiftStartDate := u.shiftStartDate.getD t.shiftStartDate
    shiftEndDate := u.shiftEndDate.getD t.shiftEndDate
    startOdometerReading :=
      match u.startOdometerReading with
      | some v => some v
      | none => t.startOdometerReading
    endOdometerReading := u.endOdometerReading.getD t.endOdometerReading
    status := u.status.getD t.status
    approvedBy := u.approvedBy.getD t.approvedBy
    approvedAt := u.approvedAt.getD t.approvedAt
    rejectionReason := u.rejectionReason.getD t.rejectionReason
    billingRateId :=
      match u.billingRateId with
      | some v => some v
      | none => t.billingRateId
    totalBilledAmount :=
      match u.totalBilledAmount with
      | some v => some v
      | none => t.totalBilledAmount
    notes :=
      match u.notes with
      | some v => some v
      | none => t.notes
    updatedAt := u.updatedAt.getD t.updatedAt }

/-- The admin branch of the PATCH handler, after the truck reference in the
payload (if any) has been validated: the field-by-field
`if (x !== undefined) updatePayload.x = ...` assignments, then the
status-transition side effects, or — when status is absent — the legacy
numeric `approvedAt` passthrough. -/
def adminSet (user : User) (p : TimesheetUpdate) (tid : Option String) (now : Int) : TsSet :=
  let u0 : TsSet :=
    { truckId := tid
      startOdometerReading := p.startOdometerReading
      endOdometerReading := p.endOdometerReading
      notes := p.notes
      rejectionReason := p.rejectionReason.map some
      billingRateId := p.billingRateId
      totalBilledAmount := p.totalBilledAmount
      shiftStartDate := p.shiftStartDate
      shiftEndDate := p.shiftEndDate.map (fun v => if truthyNum (some v) then some v else none) }
  match p.status with
  | some st =>
    let u1 : TsSet := { u0 with status := some st }
    match st with
    | .approved =>
      { u1 with
        approvedBy := some (some user.id)
        approvedAt := some (some now)
        rejectionReason := some none }
    | .rejected =>
      { u1 with
        approvedBy := some none
        approvedAt := some none
        rejectionReason := some (some (p.rejectionReason.getD "Rejected by admin.")) }
    | .pending =>
      { u1 with
        approvedBy := some none
        approvedAt := some none
        rejectionReason := some none }
  | none =>
    match p.approvedAt with
    | some n => { u0 with approvedAt := some (some n) }
    | none => u0

/-- The driver branch of the PATCH handler (ownership and status gates already
passed, truck reference validated): the `allowedDriverUpdates` object, plus
the rejected-to-pending reset when the existing record is `rejected`. -/
def driverSet (existing : Timesheet) (p : TimesheetUpdate) (tid : Option String) : TsSet :=
  let u0 : TsSet :=
    { shiftStartDate := p.shiftStartDate
      shiftEndDate := p.shiftEndDate.map (fun v => if truthyNum (some v) then some v else none)
      startOdometerReading := p.startOdometerReading
      endOdometerReading := p.endOdometerReading
      notes := p.notes
      truckId := tid }
  if existing.status = TsStatus.rejected then
    { u0 with
      status := some .pending
      rejectionReason := some none
      approvedBy := some none
      approvedAt := some none }
  else u0

/-- Result of the PATCH `/:id` handler. -/
inductive PatchResult
  | ok (code : Nat) (record : Timesheet) (db : DB)
  | error (code : Nat) (msg : String) (db : DB)
deriving DecidableEq, Repr

/-- The tail of the PATCH transaction, common to both roles: the empty-payload
early return, the `updatedAt` stamp, the row update, and the truck-odometer
propagation (`updatePayload.endOdometerReading !== undefined &&
updatePayload.truckId`, else the existing record's truck id). -/
def finishPatch (tsId : String) (existing : Timesheet) (u : TsSet) (db : DB)
    (now : Int) : PatchResult :=
  if u.isEmpty then .ok 200 existing db
  else
    let u1 : TsSet := { u with updatedAt := some now }
    let updated := applyTsSet existing u1
    let db1 : DB :=
      { db with
        timesheets := db.timesheets.map fun t => if t.id = tsId then applyTsSet t u1 else t }
    let db2 : DB :=
      match u1.endOdometerReading with
      | some e =>
        if truthyStr u1.truckId then
          { db1 with trucks := updateTruckOdometer db1.trucks (u1.truckId.getD "") e now }
        else if truthyStr (some existing.truckId) then
          { db1 with trucks := updateTruckOdometer db1.trucks existing.truckId e now }
        else db1
      | none => db1
    .ok 200 updated db2

/-- PATCH `/api/timesheets/:id` (`timesheet-routes.ts`): authentication, then
one transaction that loads the record (404 on absence via the thrown
"Timesheet not found"), branches on role — admin: validate any new truck
reference (400), assemble the payload with status side effects; driver:
ownership gate (403), pending-or-rejected gate (403), restricted field set,
truck validation (400), rejected-to-pending reset; other roles: 403 — and
finishes with the common write-and-propagate tail.  Thrown errors roll the
transaction back, so every error response carries the unchanged database. -/
def timesheetsRoutePatch (user? : Option User) (tsId : String) (p : TimesheetUpdate)
    (db : DB) (now : Int) : PatchResult :=
  match user? with
  | none => .error 401 "Unauthorized" db
  | some user =>
    match findTimesheet db tsId with
    | none => .error 404 "Timesheet not found" db
    | some existing =>
      match user.role with
      | .admin =>
        match p.truckId with
        | some tid =>
          if (findTruck db tid).isSome then
            finishPatch tsId existing (adminSet user p (some tid) now) db now
          else .error 400 "Invalid new truckId: Truck not found" db
        | none => finishPatch tsId existing (adminSet user p none now) db now
      | .driver =>
        if existing.driverId ≠ user.id then
          .error 403 "Forbidden: You can only edit your own timesheets" db
        else if existing.status ≠ TsStatus.pending ∧ existing.status ≠ TsStatus.rejected then
          .error 403 "Forbidden: You can only edit pending or rejected timesheets" db
        else
          match p.truckId with
          | some tid =>
            if (findTruck db tid).isSome then
              finishPatch tsId existing (driverSet existing p (some tid)) db now
            else .error 400 "Invalid new truckId: Truck not found" db
          | none => finishPatch tsId existing (driverSet existing p none) db now
      | .maintenance => .error 403 "Forbidden: Insufficient permissions" db

/-- Result of the DELETE `/api/timesheets/:id` handler:
`{ message, timesheet }` on success. -/
inductive DeleteTsResult
  | ok (code : Nat) (msg : String) (record : Timesheet) (db : DB)
  | error (code : Nat) (msg : String) (db : DB)
deriving DecidableEq, Repr

/-- DELETE `/api/timesheets/:id` (`timesheet-routes.ts`): authentication,
admin-only gate, existence check, then `db.delete(timesheets)` — nothing else
is written; in particular no truck row is touched (the handler's comment
explicitly defers any recomputation of `lastOdometerReading`). -/
def timesheetsRouteDelete (user? : Option User) (tsId : String) (db : DB) : DeleteTsResult :=
  match user? with
  | none => .error 401 "Unauthorized" db
  | some user =>
    if user.role ≠ Role.admin then
      .error 403 "Forbidden: Only admins can delete timesheets" db
    else
      match findTimesheet db tsId with
      | none => .error 404 "Timesheet not found" db
      | some existing =>
        .ok 200 "Timesheet deleted successfully" existing
          { db with timesheets := db.timesheets.filter (fun t => t.id ≠ tsId) }

/-- Result of the DELETE `/api/trucks/:id` handler:
`{ message, truck }` on success. -/
inductive DeleteTruckResult
  | ok (code : Nat) (msg : String) (record : Truck) (db : DB)
  | error (code : Nat) (msg : String) (db : DB)
deriving DecidableEq, Repr

/-- DELETE `/api/trucks/:id` (`trucks-routes.ts`): authentication, admin-only
gate, existence check, then `db.delete(trucks)`.  Because
`timesheets.truck_id` carries `ON DELETE restrict`, SQLite raises
"FOREIGN KEY constraint failed" whenever any timesheet still references the
truck; the handler's catch-clause maps exactly that failure to HTTP 409
("Cannot delete truck: it is referenced by existing timesheets.").
`maintenance_logs.truck_id` is `ON DELETE cascade` and never blocks. -/
def trucksRouteDelete (user? : Option User) (truckId : String) (db : DB) : DeleteTruckResult :=
  match user? with
  | none => .error 401 "Unauthorized" db
  | some user =>
    if user.role ≠ Role.admin then
      .error 403 "Forbidden" db
    else
      match findTruck db truckId with
      | none => .error 404 "Truck not found" db
      | some existing =>
        if db.timesheets.any (fun t => t.truckId == truckId) then
          .error 409 "Cannot delete truck: it is referenced by existing timesheets." db
        else
          .ok 200 "Truck deleted successfully" existing
            { db with trucks := db.trucks.filter (fun t => t.id ≠ truckId) }

/-! Concrete scenario used by counterexamples and witnesses: one truck, one
admin, two drivers, and a database holding one rejected timesheet of
`driverA`. -/

/-- A concrete truck. -/
def truck1 : Truck :=
  { id := "t1", unitNumber := "U-100", lastOdometerReading := some 900 }

/-- A concrete admin actor. -/
def admin1 : User := { id := "adm1", role := .admin }

/-- A concrete driver actor. -/
def driverA : User := { id := "drvA", role := .driver }

/-- A second concrete driver actor. -/
def driverB : User := { id := "drvB", role := .driver }

/-- A concrete stored timesheet of `driverA`, currently rejected. -/
def sheet1 : Timesheet :=
  { id := "ts1", driverId := "drvA", truckId := "t1", shiftStartDate := 100,
    shiftEndDate := some 200, startOdometerReading := some 500,
    endOdometerReading := 900, status := .rejected,
    rejectionReason := some "odometer mismatch", createdAt := 50, updatedAt := 60 }

/-- A concrete database: `truck1` and `sheet1`, no billing rates. -/
def db1 : DB := { trucks := [truck1], timesheets := [sheet1] }

/-- A create request whose end odometer is below its start odometer. -/
def badOdoCreate : TimesheetCreate :=
  { driverId := "drvA", truckId := "t1", shiftStartDate := 1000,
    shiftEndDate := some 500, startOdometerReading := some 200,
    endOdometerReading := 100 }

/-- A well-formed create request (the spec's scenario: start 1000, end 1500). -/
def goodCreate : TimesheetCreate :=
  { driverId := "drvA", truckId := "t1", shiftStartDate := 3000,
    shiftEndDate := some 4000, startOdometerReading := some 1000,
    endOdometerReading := 1500 }

/-- The row the create handler inserts for `badOdoCreate`. -/
def badCreateRow : Timesheet := timesheetData "drvA" badOdoCreate 1000 "ts2"

/-- The database after the (accepted) bad-odometer create: the row is stored
and the truck's odometer has been dragged down to 100. -/
def dbAfterBadCreate : DB :=
  { trucks := [{ truck1 with lastOdometerReading := some 100, updatedAt := 1000 }],
    timesheets := [sheet1, badCreateRow] }

/-- An empty update payload. -/
def emptyUpdate : TimesheetUpdate := {}

/-- An admin update that only sets the status to approved. -/
def approvePayload : TimesheetUpdate := { status := some .approved }

/-- An update naming a truck id that exists in no database used here. -/
def ghostTruckPayload : TimesheetUpdate := { truckId := some "ghost" }

/-- An admin update naming a billing-rate id that exists nowhere. -/
def ghostBillingPayload : TimesheetUpdate := { billingRateId := some "br9" }

/-- A status-free admin update carrying only a numeric `approvedAt`. -/
def apOnlyPayload : TimesheetUpdate := { approvedAt := some 777 }

/-- A status-free admin update carrying a numeric `approvedAt` together with a
replacement rejection reason. -/
def apReasonPayload : TimesheetUpdate :=
  { approvedAt := some 777, rejectionReason := some "changed" }

/-- `sheet1` after `apReasonPayload` is applied by the admin branch. -/
def sheet1Patched : Timesheet :=
  { sheet1 with approvedAt := some 777, rejectionReason := some "changed", updatedAt := 999 }

/-- The database state after patching `sheet1` with `apReasonPayload`. -/
def dbAfterApReason : DB := { trucks := [truck1], timesheets := [sheet1Patched] }

/-- Bool form of "every truck reference in this optional payload field exists
in the database" (vacuously true when the field is absent). -/
def truckRefOk (db : DB) : Option String → Bool
  | none => true
  | some tid => (findTruck db tid).isSome

/-! ### Helper lemmas -/

/-- A payload never writes the primary key. -/
theorem applyTsSet_id (t : Timesheet) (u : TsSet) : (applyTsSet t u).id = t.id := rfl

/-- `find?` after the row update: the first row matching the id becomes the
updated image of the previously found row. -/
theorem find?_applyTsSet (l : List Timesheet) (tsId : String) (u : TsSet) (ex : Timesheet)
    (h : l.find? (fun t => t.id == tsId) = some ex) :
    (l.map fun t => if t.id = tsId then applyTsSet t u else t).find? (fun t => t.id == tsId)
      = some (applyTsSet ex u) := by
  induction l with
  | nil => simp at h
  | cons a l ih =>
    by_cases ha : a.id = tsId
    · rw [List.find?_cons_of_pos _ (by simp [ha])] at h
      injection h with h
      subst h
      simp only [List.map_cons]
      rw [List.find?_cons_of_pos _ (by simp [applyTsSet_id, ha]), if_pos ha]
    · rw [List.find?_cons_of_neg _ (by simp [ha])] at h
      simp only [List.map_cons]
      rw [List.find?_cons_of_neg _ (by simp [ha])]
      exact ih h

/-- Every truck row carrying the targeted id holds the new odometer value
after `updateTruckOdometer`. -/
theorem updateTruckOdometer_sets (l : List Truck) (tid : String) (odo now : Int) :
    ∀ t ∈ updateTruckOdometer l tid odo now, t.id = tid →
      t.lastOdometerReading = some odo := by
  intro t ht htid
  simp only [updateTruckOdometer, List.mem_map] at ht
  obtain ⟨a, _, hfa⟩ := ht
  by_cases h : a.id = tid
  · rw [if_pos h] at hfa
    subst hfa
    rfl
  · rw [if_neg h] at hfa
    subst hfa
    exact absurd htid h

/-- A nonempty payload makes `finishPatch` stamp `updatedAt`, write the row
and answer 200 with the updated record; the stored timesheets are the mapped
list whatever the truck-propagation branch did. -/
theorem finishPatch_ok (tsId : String) (ex : Timesheet) (u : TsSet) (db : DB) (now : Int)
    (h : u.isEmpty = false) :
    ∃ db2,
      finishPatch tsId ex u db now
        = PatchResult.ok 200 (applyTsSet ex { u with updatedAt := some now }) db2 ∧
      db2.timesheets
        = db.timesheets.map fun t =>
            if t.id = tsId then applyTsSet t { u with updatedAt := some now } else t := by
  simp only [finishPatch, h, Bool.false_eq_true, if_false]
  split
  · split
    · exact ⟨_, rfl, rfl⟩
    · split
      · exact ⟨_, rfl, rfl⟩
      · exact ⟨_, rfl, rfl⟩
  · exact ⟨_, rfl, rfl⟩

/-- Successful admin PATCH: with the target record present, every truck
reference in the payload valid and a nonempty assembled payload, the handler
answers 200 with the updated record, which is also what the database then
stores under the target id. -/
theorem adminPatch_ok (u : User) (tsId : String) (p : TimesheetUpdate) (db : DB) (now : Int)
    (ex : Timesheet)
    (hadmin : u.role = Role.admin)
    (hfind : findTimesheet db tsId = some ex)
    (htruck : ∀ tid, p.truckId = some tid → (findTruck db tid).isSome = true)
    (hne : (adminSet u p p.truckId now).isEmpty = false) :
    ∃ db2,
      timesheetsRoutePatch (some u) tsId p db now
        = PatchResult.ok 200
            (applyTsSet ex { adminSet u p p.truckId now with updatedAt := some now }) db2 ∧
      findTimesheet db2 tsId
        = some (applyTsSet ex { adminSet u p p.truckId now with updatedAt := some now }) := by
  cases htid : p.truckId with
  | none =>
    rw [htid] at hne
    obtain ⟨db2, heq, hts⟩ := finishPatch_ok tsId ex (adminSet u p none now) db now hne
    refine ⟨db2, ?_, ?_⟩
    · simp only [timesheetsRoutePatch, hadmin, hfind, htid]
      exact heq
    · show db2.timesheets.find? (fun t => t.id == tsId) = _
      rw [hts]
      exact find?_applyTsSet db.timesheets tsId _ ex hfind
  | some tid =>
    rw [htid] at hne
    obtain ⟨db2, heq, hts⟩ := finishPatch_ok tsId ex (adminSet u p (some tid) now) db now hne
    refine ⟨db2, ?_, ?_⟩
    · simp only [timesheetsRoutePatch, hadmin, hfind, htid, htruck tid htid, if_true]
      exact heq
    · show db2.timesheets.find? (fun t => t.id == tsId) = _
      rw [hts]
      exact find?_applyTsSet db.timesheets tsId _ ex hfind

/-- Successful driver PATCH: the driver owns the record, the record is
pending or rejected, every truck reference in the payload is valid and the
assembled payload is nonempty — then the handler answers 200 with the
updated record, which the database then stores under the target id. -/
theorem driverPatch_ok (u : User) (tsId : String) (p : TimesheetUpdate) (db : DB) (now : Int)
    (ex : Timesheet)
    (hdrv : u.role = Role.driver)
    (hfind : findTimesheet db tsId = some ex)
    (hown : ex.driverId = u.id)
    (hstat : ex.status = TsStatus.pending ∨ ex.status = TsStatus.rejected)
    (htruck : ∀ tid, p.truckId = some tid → (findTruck db tid).isSome = true)
    (hne : (driverSet ex p p.truckId).isEmpty = false) :
    ∃ db2,
      timesheetsRoutePatch (some u) tsId p db now
        = PatchResult.ok 200
            (applyTsSet ex { driverSet ex p p.truckId with updatedAt := some now }) db2 ∧
      findTimesheet db2 tsId
        = some (applyTsSet ex { driverSet ex p p.truckId with updatedAt := some now }) := by
  have hgate : ¬(ex.status ≠ TsStatus.pending ∧ ex.status ≠ TsStatus.rejected) := by
    rcases hstat with h | h <;> simp [h]
  cases htid : p.truckId with
  | none =>
    rw [htid] at hne
    obtain ⟨db2, heq, hts⟩ := finishPatch_ok tsId ex (driverSet ex p none) db now hne
    refine ⟨db2, ?_, ?_⟩
    · simp only [timesheetsRoutePatch, hdrv, hfind, htid, hown, hgate]
      simpa using heq
    · show db2.timesheets.find? (fun t => t.id == tsId) = _
      rw [hts]
      exact find?_applyTsSet db.timesheets tsId _ ex hfind
  | some tid =>
    rw [htid] at hne
    obtain ⟨db2, heq, hts⟩ := finishPatch_ok tsId ex (driverSet ex p (some tid)) db now hne
    refine ⟨db2, ?_, ?_⟩
    · simp only [timesheetsRoutePatch, hdrv, hfind, htid, htruck tid htid, if_true, hown, hgate]
      simpa using heq
    · show db2.timesheets.find? (fun t => t.id == tsId) = _
      rw [hts]
      exact find?_applyTsSet db.timesheets tsId _ ex hfind

/-- Successful create: an authenticated driver or admin posting a payload
whose truck reference exists gets 201 with the inserted pending row, the row
is appended to the timesheets table, and the trucks table is rewritten with
the submitted end odometer — all in the one transaction step. -/
theorem timesheetsRoutePost_success (u : User) (p : TimesheetCreate) (db : DB)
    (now : Int) (newId : String)
    (hrole : u.role = Role.driver ∨ u.role = Role.admin)
    (htruck : (findTruck db p.truckId).isSome = true) :
    ∃ ts db2,
      timesheetsRoutePost (some u) p db now newId = CreateResult.created 201 ts db2 ∧
      ts.status = TsStatus.pending ∧
      ts.driverId = u.id ∧
      ts.endOdometerReading = p.endOdometerReading ∧
      ts.startOdometerReading = p.startOdometerReading ∧
      db2.timesheets = db.timesheets ++ [ts] ∧
      db2.trucks = updateTruckOdometer db.trucks p.truckId p.endOdometerReading now := by
  obtain ⟨tr, htr⟩ := Option.isSome_iff_exists.mp htruck
  have hif : ¬(u.role ≠ Role.driver ∧ u.role ≠ Role.admin) := by
    rcases hrole with h | h <;> simp [h]
  refine ⟨timesheetData u.id p now newId,
    { db with
      timesheets := db.timesheets ++ [timesheetData u.id p now newId]
      trucks := updateTruckOdometer db.trucks p.truckId p.endOdometerReading now },
    ?_, rfl, rfl, rfl, rfl, rfl, rfl⟩
  simp only [timesheetsRoutePost, htr]
  rw [if_neg hif]

/-- Unpacking `truckRefOk` into the form the master lemmas consume. -/
theorem truckRefOk_spec (db : DB) (o : Option String) (h : truckRefOk db o = true) :
    ∀ tid, o = some tid → (findTruck db tid).isSome = true := by
  intro tid htid
  rw [htid] at h
  exact h

/-! ### Claims -/

/-- C1: a successful timesheet create by an authenticated driver or admin
inserts a pending timesheet whose driver is the actor, and in the same
transaction step sets the referenced truck's `lastOdometerReading` to the
submitted end odometer, answering 201 with the created record — so the
response's end odometer equals the truck's `lastOdometerReading` after the
call. -/
theorem create_pending_row_and_truck_odometer (u : User) (p : TimesheetCreate) (db : DB)
    (now : Int) (newId : String)
    (hrole : u.role = Role.driver ∨ u.role = Role.admin)
    (htruck : (findTruck db p.truckId).isSome = true) :
    ∃ ts db2,
      timesheetsRoutePost (some u) p db now newId = CreateResult.created 201 ts db2 ∧
      ts.status = TsStatus.pending ∧
      ts.driverId = u.id ∧
      ts ∈ db2.timesheets ∧
      ∀ t ∈ db2.trucks, t.id = p.truckId →
        t.lastOdometerReading = some ts.endOdometerReading := by
  obtain ⟨ts, db2, heq, hst, hdrv, hend, _, hts, htrucks⟩ :=
    timesheetsRoutePost_success u p db now newId hrole htruck
  refine ⟨ts, db2, heq, hst, hdrv, ?_, ?_⟩
  · rw [hts]
    simp
  · intro t ht htid
    rw [htrucks] at ht
    rw [hend]
    exact updateTruckOdometer_sets db.trucks p.truckId p.endOdometerReading now t ht htid

/-- Witness for C1: driver A submits the spec's scenario (start 1000, end
1500) against `db1`. -/
theorem create_pending_row_and_truck_odometer_witness :
    ((driverA.role = Role.driver ∨ driverA.role = Role.admin) ∧
      (findTruck db1 goodCreate.truckId).isSome = true) ∧
    (∃ ts db2,
      timesheetsRoutePost (some driverA) goodCreate db1 5000 "ts9"
        = CreateResult.created 201 ts db2 ∧
      ts.status = TsStatus.pending ∧
      ts.driverId = driverA.id ∧
      ts ∈ db2.timesheets ∧
      ∀ t ∈ db2.trucks, t.id = goodCreate.truckId →
        t.lastOdometerReading = some ts.endOdometerReading) :=
  ⟨⟨Or.inl rfl, by decide⟩,
    create_pending_row_and_truck_odometer driverA goodCreate db1 5000 "ts9"
      (Or.inl rfl) (by decide)⟩

/-- C3 counterexample: a create whose end odometer (100) is below its start
odometer (200) is not rejected — it is accepted with 201, the row is
inserted and the truck table rewritten, refuting "rejected before any write
occurs". -/
theorem create_bad_odometer_accepted_counterexample :
    badOdoCreate.startOdometerReading = some 200 ∧
    badOdoCreate.endOdometerReading = 100 ∧
    timesheetsRoutePost (some driverA) badOdoCreate db1 1000 "ts2"
      = CreateResult.created 201 badCreateRow dbAfterBadCreate ∧
    dbAfterBadCreate.timesheets ≠ db1.timesheets ∧
    dbAfterBadCreate.trucks ≠ db1.trucks := by
  decide

/-- C3 amended: neither the create schema nor the handler compares the
odometer readings or the shift bounds — a create whose end odometer is at or
below its start odometer (and whose shift end is at or below its shift
start) proceeds exactly like any other create: accepted with 201, row
inserted, truck odometer overwritten. -/
theorem create_no_odometer_or_shift_guard (u : User) (p : TimesheetCreate) (db : DB)
    (now : Int) (newId : String)
    (hrole : u.role = Role.driver ∨ u.role = Role.admin)
    (htruck : (findTruck db p.truckId).isSome = true)
    (_hbadOdo : ∀ s, p.startOdometerReading = some s → p.endOdometerReading ≤ s)
    (_hbadShift : ∀ e, p.shiftEndDate = some e → e ≤ p.shiftStartDate) :
    ∃ ts db2,
      timesheetsRoutePost (some u) p db now newId = CreateResult.created 201 ts db2 ∧
      db2.timesheets = db.timesheets ++ [ts] ∧
      db2.trucks = updateTruckOdometer db.trucks p.truckId p.endOdometerReading now := by
  obtain ⟨ts, db2, heq, _, _, _, _, hts, htrucks⟩ :=
    timesheetsRoutePost_success u p db now newId hrole htruck
  exact ⟨ts, db2, heq, hts, htrucks⟩

/-- Witness for the amended C3: the concrete bad-odometer create. -/
theorem create_no_odometer_or_shift_guard_witness :
    ((driverA.role = Role.driver ∨ driverA.role = Role.admin) ∧
      (findTruck db1 badOdoCreate.truckId).isSome = true ∧
      (∀ s, badOdoCreate.startOdometerReading = some s →
        badOdoCreate.endOdometerReading ≤ s) ∧
      (∀ e, badOdoCreate.shiftEndDate = some e → e ≤ badOdoCreate.shiftStartDate)) ∧
    (∃ ts db2,
      timesheetsRoutePost (some driverA) badOdoCreate db1 1000 "ts2"
        = CreateResult.created 201 ts db2 ∧
      db2.timesheets = db1.timesheets ++ [ts] ∧
      db2.trucks
        = updateTruckOdometer db1.trucks badOdoCreate.truckId
            badOdoCreate.endOdometerReading 1000) :=
  ⟨⟨Or.inl rfl, by decide, by decide, by decide⟩,
    create_no_odometer_or_shift_guard driverA badOdoCreate db1 1000 "ts2"
      (Or.inl rfl) (by decide) (by decide) (by decide)⟩

/-- C2: an admin update setting status to approved stores approver = actor,
a non-null approval timestamp and a null rejection reason; setting status to
rejected stores null approver and approval timestamp and a non-null
rejection reason, which is the fixed placeholder "Rejected by admin."
whenever the payload supplied none. -/
theorem admin_status_transition_fields (u : User) (tsId : String) (p : TimesheetUpdate)
    (db : DB) (now : Int) (ex : Timesheet)
    (hadmin : u.role = Role.admin)
    (hfind : findTimesheet db tsId = some ex)
    (htruck : truckRefOk db p.truckId = true) :
    (p.status = some TsStatus.approved →
      ∃ r db2,
        timesheetsRoutePatch (some u) tsId p db now = PatchResult.ok 200 r db2 ∧
        findTimesheet db2 tsId = some r ∧
        r.status = TsStatus.approved ∧
        r.approvedBy = some u.id ∧
        r.approvedAt = some now ∧
        r.rejectionReason = none) ∧
    (p.status = some TsStatus.rejected →
      ∃ r db2,
        timesheetsRoutePatch (some u) tsId p db now = PatchResult.ok 200 r db2 ∧
        findTimesheet db2 tsId = some r ∧
        r.status = TsStatus.rejected ∧
        r.approvedBy = none ∧
        r.approvedAt = none ∧
        r.rejectionReason = some (p.rejectionReason.getD "Rejected by admin.")) := by
  have htr := truckRefOk_spec db p.truckId htruck
  constructor
  · intro hst
    have hne : (adminSet u p p.truckId now).isEmpty = false := by
      simp [adminSet, hst, TsSet.isEmpty]
    obtain ⟨db2, heq, hstore⟩ := adminPatch_ok u tsId p db now ex hadmin hfind htr hne
    refine ⟨_, db2, heq, hstore, ?_, ?_, ?_, ?_⟩ <;>
      simp [applyTsSet, adminSet, hst]
  · intro hst
    have hne : (adminSet u p p.truckId now).isEmpty = false := by
      simp [adminSet, hst, TsSet.isEmpty]
    obtain ⟨db2, heq, hstore⟩ := adminPatch_ok u tsId p db now ex hadmin hfind htr hne
    refine ⟨_, db2, heq, hstore, ?_, ?_, ?_, ?_⟩ <;>
      simp [applyTsSet, adminSet, hst]

/-- Witness for C2: the admin approves the rejected `sheet1`. -/
theorem admin_status_transition_fields_witness :
    (admin1.role = Role.admin ∧
      findTimesheet db1 "ts1" = some sheet1 ∧
      truckRefOk db1 approvePayload.truckId = true) ∧
    (approvePayload.status = some TsStatus.approved →
      ∃ r db2,
        timesheetsRoutePatch (some admin1) "ts1" approvePayload db1 999
          = PatchResult.ok 200 r db2 ∧
        findTimesheet db2 "ts1" = some r ∧
        r.status = TsStatus.approved ∧
        r.approvedBy = some admin1.id ∧
        r.approvedAt = some 999 ∧
        r.rejectionReason = none) :=
  ⟨⟨rfl, by decide, by decide⟩,
    (admin_status_transition_fields admin1 "ts1" approvePayload db1 999 sheet1
      rfl (by decide) (by decide)).1⟩

/-- C4: a driver editing their own rejected timesheet always lands it back at
pending with approver, approval timestamp and rejection reason cleared,
whatever the payload contained — an empty payload included. -/
theorem driver_edit_rejected_resets (u : User) (tsId : String) (p : TimesheetUpdate)
    (db : DB) (now : Int) (ex : Timesheet)
    (hdrv : u.role = Role.driver)
    (hfind : findTimesheet db tsId = some ex)
    (hown : ex.driverId = u.id)
    (hrej : ex.status = TsStatus.rejected)
    (htruck : truckRefOk db p.truckId = true) :
    ∃ r db2,
      timesheetsRoutePatch (some u) tsId p db now = PatchResult.ok 200 r db2 ∧
      findTimesheet db2 tsId = some r ∧
      r.status = TsStatus.pending ∧
      r.approvedBy = none ∧
      r.approvedAt = none ∧
      r.rejectionReason = none := by
  have htr := truckRefOk_spec db p.truckId htruck
  have hne : (driverSet ex p p.truckId).isEmpty = false := by
    simp [driverSet, hrej, TsSet.isEmpty]
  obtain ⟨db2, heq, hstore⟩ :=
    driverPatch_ok u tsId p db now ex hdrv hfind hown (Or.inr hrej) htr hne
  refine ⟨_, db2, heq, hstore, ?_, ?_, ?_, ?_⟩ <;>
    simp [applyTsSet, driverSet, hrej]

/-- Witness for C4: driver A sends an empty payload against their own
rejected `sheet1`. -/
theorem driver_edit_rejected_resets_witness :
    (driverA.role = Role.driver ∧
      findTimesheet db1 "ts1" = some sheet1 ∧
      sheet1.driverId = driverA.id ∧
      sheet1.status = TsStatus.rejected ∧
      truckRefOk db1 emptyUpdate.truckId = true) ∧
    (∃ r db2,
      timesheetsRoutePatch (some driverA) "ts1" emptyUpdate db1 999
        = PatchResult.ok 200 r db2 ∧
      findTimesheet db2 "ts1" = some r ∧
      r.status = TsStatus.pending ∧
      r.approvedBy = none ∧
      r.approvedAt = none ∧
      r.rejectionReason = none) :=
  ⟨⟨rfl, by decide, rfl, rfl, by decide⟩,
    driver_edit_rejected_resets driverA "ts1" emptyUpdate db1 999 sheet1
      rfl (by decide) rfl rfl (by decide)⟩

/-- C5: a driver hitting another driver's timesheet gets 403 from both PATCH
and DELETE, and the database — hence the target record — is returned
untouched. -/
theorem driver_foreign_timesheet_forbidden (u : User) (tsId : String) (p : TimesheetUpdate)
    (db : DB) (now : Int) (ex : Timesheet)
    (hdrv : u.role = Role.driver)
    (hfind : findTimesheet db tsId = some ex)
    (hown : ex.driverId ≠ u.id) :
    timesheetsRoutePatch (some u) tsId p db now
      = PatchResult.error 403 "Forbidden: You can only edit your own timesheets" db ∧
    timesheetsRouteDelete (some u) tsId db
      = DeleteTsResult.error 403 "Forbidden: Only admins can delete timesheets" db := by
  constructor
  · simp only [timesheetsRoutePatch, hdrv, hfind]
    rw [if_pos hown]
  · simp only [timesheetsRouteDelete]
    rw [if_pos (by simp [hdrv])]

/-- Witness for C5: driver B attacks driver A's `sheet1`. -/
theorem driver_foreign_timesheet_forbidden_witness :
    (driverB.role = Role.driver ∧
      findTimesheet db1 "ts1" = some sheet1 ∧
      sheet1.driverId ≠ driverB.id) ∧
    (timesheetsRoutePatch (some driverB) "ts1" emptyUpdate db1 999
        = PatchResult.error 403 "Forbidden: You can only edit your own timesheets" db1 ∧
      timesheetsRouteDelete (some driverB) "ts1" db1
        = DeleteTsResult.error 403 "Forbidden: Only admins can delete timesheets" db1) :=
  ⟨⟨rfl, by decide, by decide⟩,
    driver_foreign_timesheet_forbidden driverB "ts1" emptyUpdate db1 999 sheet1
      rfl (by decide) (by decide)⟩

/-- C6: an update payload naming a nonexistent truck makes the PATCH handler
answer 400 with the transaction rolled back (database returned unchanged),
for an admin, and for a driver who passes the ownership and status gates. -/
theorem patch_unknown_truck_400 (u : User) (tsId : String) (p : TimesheetUpdate)
    (db : DB) (now : Int) (ex : Timesheet) (tid : String)
    (hfind : findTimesheet db tsId = some ex)
    (htid : p.truckId = some tid)
    (hmiss : findTruck db tid = none)
    (hrole : u.role = Role.admin ∨
      (u.role = Role.driver ∧ ex.driverId = u.id ∧
        (ex.status = TsStatus.pending ∨ ex.status = TsStatus.rejected))) :
    timesheetsRoutePatch (some u) tsId p db now
      = PatchResult.error 400 "Invalid new truckId: Truck not found" db := by
  rcases hrole with hadm | ⟨hdrv, hown, hstat⟩
  · simp [timesheetsRoutePatch, hadm, hfind, htid, hmiss]
  · have hgate : ¬(ex.status ≠ TsStatus.pending ∧ ex.status ≠ TsStatus.rejected) := by
      rcases hstat with h | h <;> simp [h]
    simp [timesheetsRoutePatch, hdrv, hfind, htid, hmiss, hown, hgate]

/-- Witness for C6: the admin names the absent truck "ghost". -/
theorem patch_unknown_truck_400_witness :
    (findTimesheet db1 "ts1" = some sheet1 ∧
      ghostTruckPayload.truckId = some "ghost" ∧
      findTruck db1 "ghost" = none ∧
      admin1.role = Role.admin) ∧
    timesheetsRoutePatch (some admin1) "ts1" ghostTruckPayload db1 999
      = PatchResult.error 400 "Invalid new truckId: Truck not found" db1 :=
  ⟨⟨by decide, rfl, by decide, rfl⟩,
    patch_unknown_truck_400 admin1 "ts1" ghostTruckPayload db1 999 sheet1 "ghost"
      (by decide) rfl (by decide) (Or.inl rfl)⟩

/-- C7: deleting a truck referenced by at least one timesheet fails with a
409 conflict (never silently), while deleting an unreferenced truck succeeds
and returns the deleted record. -/
theorem truck_delete_restricted (u : User) (tid : String) (db : DB) (ex : Truck)
    (hadm : u.role = Role.admin)
    (hfind : findTruck db tid = some ex) :
    (db.timesheets.any (fun t => t.truckId == tid) = true →
      trucksRouteDelete (some u) tid db
        = DeleteTruckResult.error 409
            "Cannot delete truck: it is referenced by existing timesheets." db) ∧
    (db.timesheets.any (fun t => t.truckId == tid) = false →
      trucksRouteDelete (some u) tid db
        = DeleteTruckResult.ok 200 "Truck deleted successfully" ex
            { db with trucks := db.trucks.filter (fun t => t.id ≠ tid) }) := by
  constructor <;> intro h <;> simp [trucksRouteDelete, hadm, hfind, h]

/-- Witness for C7: `truck1` is referenced by `sheet1`, so the delete is
refused with 409. -/
theorem truck_delete_restricted_witness :
    (admin1.role = Role.admin ∧
      findTruck db1 "t1" = some truck1 ∧
      db1.timesheets.any (fun t => t.truckId == "t1") = true) ∧
    trucksRouteDelete (some admin1) "t1" db1
      = DeleteTruckResult.error 409
          "Cannot delete truck: it is referenced by existing timesheets." db1 :=
  ⟨⟨rfl, by decide, by decide⟩,
    (truck_delete_restricted admin1 "t1" db1 truck1 rfl (by decide)).1 (by decide)⟩

/-- C8: an admin update carrying a billing-rate id that exists nowhere is
accepted — no existence check runs against the billing-rates table, the
update succeeds with 200 (not 400, unlike an unknown truck id) and the id is
stored on the record. -/
theorem admin_billing_rate_unchecked (u : User) (tsId : String) (p : TimesheetUpdate)
    (db : DB) (now : Int) (ex : Timesheet) (b : String)
    (hadmin : u.role = Role.admin)
    (hfind : findTimesheet db tsId = some ex)
    (htruck : truckRefOk db p.truckId = true)
    (hbr : p.billingRateId = some b)
    (_hmiss : b ∉ db.billingRateIds) :
    ∃ r db2,
      timesheetsRoutePatch (some u) tsId p db now = PatchResult.ok 200 r db2 ∧
      findTimesheet db2 tsId = some r ∧
      r.billingRateId = some b := by
  have htr := truckRefOk_spec db p.truckId htruck
  have hne : (adminSet u p p.truckId now).isEmpty = false := by
    cases hst : p.status with
    | none =>
      cases hap : p.approvedAt <;> simp [adminSet, TsSet.isEmpty, hbr, hst, hap]
    | some st =>
      cases st <;> simp [adminSet, TsSet.isEmpty, hbr, hst]
  obtain ⟨db2, heq, hstore⟩ := adminPatch_ok u tsId p db now ex hadmin hfind htr hne
  refine ⟨_, db2, heq, hstore, ?_⟩
  cases hst : p.status with
  | none =>
    cases hap : p.approvedAt <;> simp [applyTsSet, adminSet, hbr, hst, hap]
  | some st =>
    cases st <;> simp [applyTsSet, adminSet, hbr, hst]

/-- Witness for C8: the admin stores the nonexistent billing rate "br9" on
`sheet1`. -/
theorem admin_billing_rate_unchecked_witness :
    (admin1.role = Role.admin ∧
      findTimesheet db1 "ts1" = some sheet1 ∧
      truckRefOk db1 ghostBillingPayload.truckId = true ∧
      ghostBillingPayload.billingRateId = some "br9" ∧
      "br9" ∉ db1.billingRateIds) ∧
    (∃ r db2,
      timesheetsRoutePatch (some admin1) "ts1" ghostBillingPayload db1 999
        = PatchResult.ok 200 r db2 ∧
      findTimesheet db2 "ts1" = some r ∧
      r.billingRateId = some "br9") :=
  ⟨⟨rfl, by decide, by decide, rfl, by decide⟩,
    admin_billing_rate_unchecked admin1 "ts1" ghostBillingPayload db1 999 sheet1 "br9"
      rfl (by decide) (by decide) rfl (by decide)⟩

/-- C9: a successful timesheet delete touches no truck row: the trucks table
after the call is exactly the trucks table before it. -/
theorem timesheet_delete_preserves_trucks (u : User) (tsId : String) (db : DB) (ex : Timesheet)
    (hadm : u.role = Role.admin)
    (hfind : findTimesheet db tsId = some ex) :
    timesheetsRouteDelete (some u) tsId db
      = DeleteTsResult.ok 200 "Timesheet deleted successfully" ex
          { db with timesheets := db.timesheets.filter (fun t => t.id ≠ tsId) } ∧
    ({ db with timesheets := db.timesheets.filter (fun t => t.id ≠ tsId) } : DB).trucks
      = db.trucks := by
  constructor
  · simp [timesheetsRouteDelete, hadm, hfind]
  · rfl

/-- Witness for C9: the admin deletes `sheet1`, the truck list survives
verbatim (odometer 900 included, though `sheet1` set it). -/
theorem timesheet_delete_preserves_trucks_witness :
    (admin1.role = Role.admin ∧ findTimesheet db1 "ts1" = some sheet1) ∧
    (timesheetsRouteDelete (some admin1) "ts1" db1
        = DeleteTsResult.ok 200 "Timesheet deleted successfully" sheet1
            { db1 with timesheets := db1.timesheets.filter (fun t => t.id ≠ "ts1") } ∧
      ({ db1 with timesheets := db1.timesheets.filter (fun t => t.id ≠ "ts1") } : DB).trucks
        = db1.trucks) :=
  ⟨⟨rfl, by decide⟩,
    timesheet_delete_preserves_trucks admin1 "ts1" db1 sheet1 rfl (by decide)⟩

/-- C10 counterexample: the status-free `approvedAt` passthrough does write
the approval timestamp, but "leaving rejectionReason unchanged" fails as
soon as the same payload also carries a rejection reason: patching `sheet1`
with `apReasonPayload` (no status, `approvedAt` 777, reason "changed")
changes the stored rejection reason. -/
theorem approvedAt_passthrough_counterexample :
    apReasonPayload.status = none ∧
    apReasonPayload.approvedAt = some 777 ∧
    timesheetsRoutePatch (some admin1) "ts1" apReasonPayload db1 999
      = PatchResult.ok 200 sheet1Patched dbAfterApReason ∧
    sheet1Patched.approvedAt = some 777 ∧
    sheet1Patched.rejectionReason ≠ sheet1.rejectionReason := by
  decide

/-- C10 amended: an admin update with no status but a numeric `approvedAt`
writes that timestamp while leaving status and approver unchanged — and the
rejection reason unchanged whenever the payload did not itself carry one —
so a pending or rejected record can end up with a non-null approval
timestamp through the public PATCH interface. -/
theorem approvedAt_passthrough_without_status (u : User) (tsId : String)
    (p : TimesheetUpdate) (db : DB) (now : Int) (ex : Timesheet) (n : Int)
    (hadmin : u.role = Role.admin)
    (hfind : findTimesheet db tsId = some ex)
    (htruck : truckRefOk db p.truckId = true)
    (hst : p.status = none)
    (happ : p.approvedAt = some n) :
    ∃ r db2,
      timesheetsRoutePatch (some u) tsId p db now = PatchResult.ok 200 r db2 ∧
      findTimesheet db2 tsId = some r ∧
      r.approvedAt = some n ∧
      r.status = ex.status ∧
      r.approvedBy = ex.approvedBy ∧
      (p.rejectionReason = none → r.rejectionReason = ex.rejectionReason) := by
  have htr := truckRefOk_spec db p.truckId htruck
  have hne : (adminSet u p p.truckId now).isEmpty = false := by
    simp [adminSet, TsSet.isEmpty, hst, happ]
  obtain ⟨db2, heq, hstore⟩ := adminPatch_ok u tsId p db now ex hadmin hfind htr hne
  refine ⟨_, db2, heq, hstore, ?_, ?_, ?_, ?_⟩
  · simp [applyTsSet, adminSet, hst, happ]
  · simp [applyTsSet, adminSet, hst, happ]
  · simp [applyTsSet, adminSet, hst, happ]
  · intro hrr
    simp [applyTsSet, adminSet, hst, happ, hrr]

/-- Witness for the amended C10: `apOnlyPayload` against the rejected
`sheet1` leaves it rejected yet stamps `approvedAt` 777. -/
theorem approvedAt_passthrough_without_status_witness :
    (admin1.role = Role.admin ∧
      findTimesheet db1 "ts1" = some sheet1 ∧
      truckRefOk db1 apOnlyPayload.truckId = true ∧
      apOnlyPayload.status = none ∧
      apOnlyPayload.approvedAt = some 777) ∧
    (∃ r db2,
      timesheetsRoutePatch (some admin1) "ts1" apOnlyPayload db1 999
        = PatchResult.ok 200 r db2 ∧
      findTimesheet db2 "ts1" = some r ∧
      r.approvedAt = some 777 ∧
      r.status = sheet1.status ∧
      r.approvedBy = sheet1.approvedBy ∧
      (apOnlyPayload.rejectionReason = none → r.rejectionReason = sheet1.rejectionReason)) :=
  ⟨⟨rfl, by decide, by decide, rfl, rfl⟩,
    approvedAt_passthrough_without_status admin1 "ts1" apOnlyPayload db1 999 sheet1 777
      rfl (by decide) (by decide) rfl rfl⟩

end TeamConnect
